import Mathlib

/-!
Shallow embedding of the RFID attendance relay (`app.js`).

The server keeps a volatile in-process list `attendanceRecords` (the Local
Ledger) and talks to a remote document store with two collections,
`students` and `attendance`.  Every handler is modelled as a pure function
from the request data and the current server state to a response, the new
server state, and the list of remote-store calls it attempted.  Remote
faults (a rejected promise from the store client) are modelled as explicit
boolean parameters: `true` means that remote call throws.
-/

namespace Rfid

/-- A document of the remote `students` collection, as returned by
`doc.id` plus the spread of `doc.data()`.  `cls` stands for the JS field
`class` (a reserved word in Lean). -/
structure StudentDoc where
  docId : String
  cardId : String
  name : String
  cls : String
  rollNumber : String
  registeredAt : Nat
deriving Repr, DecidableEq

/-- The denormalized projection written to the remote `attendance`
collection by `saveToFirebase` (`createdAt` is added by the store model). -/
structure AttendanceData where
  cardId : String
  timestamp : String
  studentId : Option String
  studentName : String
  cls : String
deriving Repr, DecidableEq

/-- A stored document of the remote `attendance` collection:
store-assigned id, the written data, and the server timestamp
(`createdAt`) used for ordering and date filtering. -/
structure AttendanceDoc where
  docId : String
  data : AttendanceData
  createdAt : Nat
deriving Repr, DecidableEq

/-- The remote document store.  Documents are kept in insertion order;
`nextId` is the store-side counter from which it assigns document ids and
server timestamps (monotone, so `createdAt` order equals insertion order). -/
structure RemoteStore where
  students : List StudentDoc
  attendance : List AttendanceDoc
  nextId : Nat
deriving Repr, DecidableEq

/-- The `student` field embedded in a local attendance record:
`student || { name: 'Unknown Student', class: 'N/A' }`. -/
inductive EmbeddedStudent where
  | known (s : StudentDoc)
  | unknownStudent
deriving Repr, DecidableEq

/-- The `name` the embedded student object carries. -/
def EmbeddedStudent.name : EmbeddedStudent → String
  | known s => s.name
  | unknownStudent => "Unknown Student"

/-- The `class` the embedded student object carries. -/
def EmbeddedStudent.cls : EmbeddedStudent → String
  | known s => s.cls
  | unknownStudent => "N/A"

/-- A record of the Local Ledger (`attendanceRecords`). -/
structure AttendanceRecord where
  id : Nat
  cardId : String
  timestamp : String
  recordedAt : String
  student : EmbeddedStudent
deriving Repr, DecidableEq

/-- Whole server state: the Local Ledger plus the remote store it talks to. -/
structure ServerState where
  attendanceRecords : List AttendanceRecord
  remote : RemoteStore
deriving Repr, DecidableEq

/-- One attempted call to the remote store (used to show which handlers
touch the store at all). -/
inductive RemoteCall where
  | studentsQuery (cardId : String)
  | attendanceAdd (d : AttendanceData)
  | attendanceQuery
  | studentsAdd (cardId name cls rollNumber : String)
deriving Repr, DecidableEq

/-- JS truthiness test for an optional string request field:
`undefined` and `""` are falsy. -/
def falsyStr : Option String → Bool
  | none => true
  | some s => s == ""

/-- `getStudentDetails(cardId)`: equality query on the `students`
collection; first match wins, `null` on empty result or on fault. -/
def getStudentDetails (fault : Bool) (students : List StudentDoc)
    (cardId : String) : Option StudentDoc × List RemoteCall :=
  if fault then (none, [RemoteCall.studentsQuery cardId])
  else
    match students.filter (fun st => st.cardId == cardId) with
    | [] => (none, [RemoteCall.studentsQuery cardId])
    | d :: _ => (some d, [RemoteCall.studentsQuery cardId])

/-- `saveToFirebase(attendanceData)`: add to the `attendance` collection,
returning the store-assigned id, or `null` on fault. -/
def saveToFirebase (fault : Bool) (store : RemoteStore)
    (d : AttendanceData) : Option String × RemoteStore × List RemoteCall :=
  if fault then (none, store, [RemoteCall.attendanceAdd d])
  else
    let docId := toString store.nextId
    (some docId,
     { store with
        attendance := store.attendance ++
          [{ docId := docId, data := d, createdAt := store.nextId }]
        nextId := store.nextId + 1 },
     [RemoteCall.attendanceAdd d])

/-- Response of `POST /attendance`. -/
inductive PostAttendanceResponse where
  | badRequest (message : String)
  | created (record : AttendanceRecord) (firebaseId : Option String)
deriving Repr, DecidableEq

/-- HTTP status of a `POST /attendance` response. -/
def PostAttendanceResponse.status : PostAttendanceResponse → Nat
  | badRequest _ => 400
  | created _ _ => 201

/-- `success` flag of a `POST /attendance` response envelope. -/
def PostAttendanceResponse.success : PostAttendanceResponse → Bool
  | badRequest _ => false
  | created _ _ => true

/-- `POST /attendance`: validate `cardId`, default the timestamp, resolve
the student, append to the Local Ledger, then attempt the remote write.
`now` is the server clock reading (`new Date().toISOString()`). -/
def postAttendance (lookupFault saveFault : Bool) (now : String)
    (cardId time : Option String) (s : ServerState) :
    PostAttendanceResponse × ServerState × List RemoteCall :=
  if falsyStr cardId then
    (PostAttendanceResponse.badRequest "cardId is required", s, [])
  else
    let cid := cardId.getD ""
    let timestamp := if falsyStr time then now else time.getD ""
    let lookup := getStudentDetails lookupFault s.remote.students cid
    let student := lookup.1
    let record : AttendanceRecord :=
      { id := s.attendanceRecords.length + 1
        cardId := cid
        timestamp := timestamp
        recordedAt := now
        student :=
          match student with
          | some st => EmbeddedStudent.known st
          | none => EmbeddedStudent.unknownStudent }
    let save := saveToFirebase saveFault s.remote
      { cardId := cid
        timestamp := timestamp
        studentId := student.map (fun st => st.docId)
        studentName := match student with | some st => st.name | none => "Unknown"
        cls := match student with | some st => st.cls | none => "N/A" }
    (PostAttendanceResponse.created record save.1,
     { attendanceRecords := s.attendanceRecords ++ [record], remote := save.2.1 },
     lookup.2 ++ save.2.2)

/-- An element of a read response's `data` array: either a remote document
or a Local Ledger record (the JS arrays are untyped). -/
inductive ReadItem where
  | remoteDoc (d : AttendanceDoc)
  | localRec (r : AttendanceRecord)
deriving Repr, DecidableEq

/-- Response of `GET /attendance`. -/
structure GetAllResponse where
  status : Nat
  success : Bool
  count : Nat
  data : List ReadItem
  source : String
deriving Repr, DecidableEq

/-- `GET /attendance`: remote query ordered by `createdAt` descending,
limit 100; on fault, fall back to the full Local Ledger. -/
def getAttendance (fault : Bool) (s : ServerState) :
    GetAllResponse × ServerState × List RemoteCall :=
  if fault then
    ({ status := 200, success := true
       count := s.attendanceRecords.length
       data := s.attendanceRecords.map ReadItem.localRec
       source := "memory" },
     s, [RemoteCall.attendanceQuery])
  else
    let docs := s.remote.attendance.reverse.take 100
    ({ status := 200, success := true
       count := docs.length
       data := docs.map ReadItem.remoteDoc
       source := "firebase" },
     s, [RemoteCall.attendanceQuery])

/-- Response of `GET /attendance/latest` (no `source` field is emitted). -/
structure GetLatestResponse where
  status : Nat
  success : Bool
  count : Nat
  data : List ReadItem
deriving Repr, DecidableEq

/-- `GET /attendance/latest`: remote query ordered by `createdAt`
descending, limit 10; on fault, `attendanceRecords.slice(-10).reverse()`. -/
def getAttendanceLatest (fault : Bool) (s : ServerState) :
    GetLatestResponse × ServerState × List RemoteCall :=
  if fault then
    let latest :=
      ((s.attendanceRecords.drop (s.attendanceRecords.length - 10)).reverse).map
        ReadItem.localRec
    ({ status := 200, success := true, count := latest.length, data := latest },
     s, [RemoteCall.attendanceQuery])
  else
    let docs := s.remote.attendance.reverse.take 10
    ({ status := 200, success := true, count := docs.length
       data := docs.map ReadItem.remoteDoc },
     s, [RemoteCall.attendanceQuery])

/-- Response of `GET /attendance/today`. -/
inductive GetTodayResponse where
  | ok (count : Nat) (data : List AttendanceDoc)
  | serverError (message : String)
deriving Repr, DecidableEq

/-- HTTP status of a `GET /attendance/today` response. -/
def GetTodayResponse.status : GetTodayResponse → Nat
  | ok _ _ => 200
  | serverError _ => 500

/-- `success` flag of a `GET /attendance/today` response envelope. -/
def GetTodayResponse.success : GetTodayResponse → Bool
  | ok _ _ => true
  | serverError _ => false

/-- `GET /attendance/today`: remote query filtered to
`createdAt >= startOfToday`, ordered descending; a fault is surfaced as a
500 error — this handler has no Local Ledger fallback. -/
def getAttendanceToday (fault : Bool) (startOfToday : Nat) (s : ServerState) :
    GetTodayResponse × ServerState × List RemoteCall :=
  if fault then
    (GetTodayResponse.serverError "Failed to fetch todays attendance",
     s, [RemoteCall.attendanceQuery])
  else
    let docs :=
      (s.remote.attendance.filter (fun d => startOfToday ≤ d.createdAt)).reverse
    (GetTodayResponse.ok docs.length docs, s, [RemoteCall.attendanceQuery])

/-- Response of `POST /students/register`. -/
inductive RegisterResponse where
  | badRequest (message : String)
  | created (id cardId name : String)
  | serverError (message : String)
deriving Repr, DecidableEq

/-- HTTP status of a `POST /students/register` response. -/
def RegisterResponse.status : RegisterResponse → Nat
  | badRequest _ => 400
  | created _ _ _ => 201
  | serverError _ => 500

/-- `success` flag of a `POST /students/register` response envelope. -/
def RegisterResponse.success : RegisterResponse → Bool
  | badRequest _ => false
  | created _ _ _ => true
  | serverError _ => false

/-- `POST /students/register`: require `cardId` and `name`, default
`class`/`rollNumber` to `"N/A"`, add a document to the `students`
collection; a fault during the write is a 500 error. -/
def registerStudent (fault : Bool) (cardId name studentClass rollNumber : Option String)
    (s : ServerState) : RegisterResponse × ServerState × List RemoteCall :=
  if falsyStr cardId || falsyStr name then
    (RegisterResponse.badRequest "cardId and name are required", s, [])
  else
    let cid := cardId.getD ""
    let nm := name.getD ""
    let cls := if falsyStr studentClass then "N/A" else studentClass.getD ""
    let roll := if falsyStr rollNumber then "N/A" else rollNumber.getD ""
    if fault then
      (RegisterResponse.serverError "Failed to register student", s,
       [RemoteCall.studentsAdd cid nm cls roll])
    else
      let docId := toString s.remote.nextId
      let doc : StudentDoc :=
        { docId := docId, cardId := cid, name := nm, cls := cls
          rollNumber := roll, registeredAt := s.remote.nextId }
      (RegisterResponse.created docId cid nm,
       { s with remote :=
          { s.remote with
             students := s.remote.students ++ [doc]
             nextId := s.remote.nextId + 1 } },
       [RemoteCall.studentsAdd cid nm cls roll])

/-- Response of `DELETE /attendance/clear`. -/
structure ClearResponse where
  success : Bool
  message : String
deriving Repr, DecidableEq

/-- `DELETE /attendance/clear`: empty the Local Ledger, report the prior
count in the message; the remote store is not touched. -/
def clearAttendance (s : ServerState) :
    ClearResponse × ServerState × List RemoteCall :=
  let count := s.attendanceRecords.length
  ({ success := true
     message := "Cleared " ++ toString count ++
       " local records (Firebase data unchanged)" },
   { s with attendanceRecords := [] }, [])

/-- One inbound request, with the environment choices (fault flags, server
clock) that accompany it. -/
inductive Op where
  | post (lookupFault saveFault : Bool) (now : String) (cardId time : Option String)
  | getAll (fault : Bool)
  | getLatest (fault : Bool)
  | getToday (fault : Bool) (startOfToday : Nat)
  | register (fault : Bool) (cardId name studentClass rollNumber : Option String)
  | clear
deriving Repr, DecidableEq

/-- State transition of one request (response and trace dropped). -/
def execOp (s : ServerState) : Op → ServerState
  | Op.post lf sf now c t => (postAttendance lf sf now c t s).2.1
  | Op.getAll f => (getAttendance f s).2.1
  | Op.getLatest f => (getAttendanceLatest f s).2.1
  | Op.getToday f d => (getAttendanceToday f d s).2.1
  | Op.register f c n sc rn => (registerStudent f c n sc rn s).2.1
  | Op.clear => (clearAttendance s).2.1

/-- Server state at process start: `attendanceRecords = []`; the remote
store holds whatever it held before the process started. -/
def initialState (remote : RemoteStore) : ServerState :=
  { attendanceRecords := [], remote := remote }

/-- The `localId` values currently in use in the Local Ledger. -/
def ledgerIds (s : ServerState) : List Nat :=
  s.attendanceRecords.map (fun r => r.id)

/-- A remote store with empty collections (used as a concrete test store). -/
def emptyRemote : RemoteStore :=
  { students := [], attendance := [], nextId := 0 }

/-- A fresh server in front of an empty store (concrete test state). -/
def emptyState : ServerState :=
  initialState emptyRemote

/-- A concrete registered student (test fixture). -/
def aliceDoc : StudentDoc :=
  { docId := "s1", cardId := "CARD1", name := "Alice", cls := "10A"
    rollNumber := "7", registeredAt := 0 }

/-- A fresh server whose store already knows `aliceDoc` (test fixture). -/
def stateWithAlice : ServerState :=
  { attendanceRecords := []
    remote := { students := [aliceDoc], attendance := [], nextId := 1 } }

/-- A concrete Local Ledger record (test fixture). -/
def sampleRecord : AttendanceRecord :=
  { id := 1, cardId := "CARD9", timestamp := "T0", recordedAt := "T0"
    student := EmbeddedStudent.unknownStudent }

/-- Same remote store as `stateWithAlice` but a non-empty Local Ledger
(test fixture). -/
def stateWithAliceAndLedger : ServerState :=
  { attendanceRecords := [sampleRecord], remote := stateWithAlice.remote }

/-- C1: an ingestion call with a non-empty `cardId` appends exactly one
record to the Local Ledger and answers a 201 success envelope, whatever
the student lookup and the remote write do. -/
theorem C1_ingestion_appends_once_and_succeeds
    (lookupFault saveFault : Bool) (now : String) (c : String)
    (time : Option String) (s : ServerState) (h : c ≠ "") :
    ∃ r fid,
      (postAttendance lookupFault saveFault now (some c) time s).1 =
        PostAttendanceResponse.created r fid ∧
      (postAttendance lookupFault saveFault now (some c) time s).2.1.attendanceRecords =
        s.attendanceRecords ++ [r] ∧
      (postAttendance lookupFault saveFault now (some c) time s).1.status = 201 ∧
      (postAttendance lookupFault saveFault now (some c) time s).1.success = true := by
  have hfalsy : falsyStr (some c) = false := by
    simp [falsyStr, h]
  simp only [postAttendance, hfalsy, Bool.false_eq_true, if_false]
  exact ⟨_, _, rfl, rfl, rfl, rfl⟩

/-- C1 witness at a concrete input (remote write faulted). -/
theorem C1_ingestion_appends_once_and_succeeds_witness :
    ∃ r fid,
      (postAttendance false true "T0" (some "CARD9") none emptyState).1 =
        PostAttendanceResponse.created r fid ∧
      (postAttendance false true "T0" (some "CARD9") none emptyState).2.1.attendanceRecords =
        emptyState.attendanceRecords ++ [r] ∧
      (postAttendance false true "T0" (some "CARD9") none emptyState).1.status = 201 ∧
      (postAttendance false true "T0" (some "CARD9") none emptyState).1.success = true :=
  C1_ingestion_appends_once_and_succeeds false true "T0" "CARD9" none emptyState
    (by decide)

/-- C2: when the remote write faults the response carries no
`firebaseId`; when it succeeds the response carries exactly the id the
store assigned to the document it now holds last. -/
theorem C2_remoteId_tracks_remote_write
    (lookupFault : Bool) (now : String) (c : String)
    (time : Option String) (s : ServerState) (h : c ≠ "") :
    (∃ r, (postAttendance lookupFault true now (some c) time s).1 =
        PostAttendanceResponse.created r none) ∧
    (∃ r fid d,
      (postAttendance lookupFault false now (some c) time s).1 =
        PostAttendanceResponse.created r (some fid) ∧
      (postAttendance lookupFault false now (some c) time s).2.1.remote.attendance.getLast? =
        some d ∧
      d.docId = fid) := by
  have hfalsy : falsyStr (some c) = false := by
    simp [falsyStr, h]
  constructor
  · simp only [postAttendance, hfalsy, Bool.false_eq_true, if_false,
      saveToFirebase, if_true]
    exact ⟨_, rfl⟩
  · simp only [postAttendance, hfalsy, Bool.false_eq_true, if_false,
      saveToFirebase]
    refine ⟨_, _,
      { docId := toString s.remote.nextId
        data :=
          { cardId := (some c).getD ""
            timestamp := if falsyStr time = true then now else time.getD ""
            studentId := Option.map (fun st => st.docId)
              (getStudentDetails lookupFault s.remote.students ((some c).getD "")).1
            studentName :=
              match (getStudentDetails lookupFault s.remote.students ((some c).getD "")).1 with
              | some st => st.name
              | none => "Unknown"
            cls :=
              match (getStudentDetails lookupFault s.remote.students ((some c).getD "")).1 with
              | some st => st.cls
              | none => "N/A" }
        createdAt := s.remote.nextId },
      rfl, List.getLast?_concat _, rfl⟩

/-- C2 witness at a concrete input. -/
theorem C2_remoteId_tracks_remote_write_witness :
    (∃ r, (postAttendance false true "T0" (some "CARD9") none emptyState).1 =
        PostAttendanceResponse.created r none) ∧
    (∃ r fid d,
      (postAttendance false false "T0" (some "CARD9") none emptyState).1 =
        PostAttendanceResponse.created r (some fid) ∧
      (postAttendance false false "T0" (some "CARD9") none emptyState).2.1.remote.attendance.getLast? =
        some d ∧
      d.docId = fid) :=
  C2_remoteId_tracks_remote_write false "T0" "CARD9" none emptyState (by decide)

/-- C3: an ingestion call whose `cardId` is absent or empty is rejected
with a 400 validation error, leaves the whole server state unchanged, and
attempts no remote call at all. -/
theorem C3_missing_cardId_rejected_no_side_effects
    (lookupFault saveFault : Bool) (now : String) (cardId time : Option String)
    (s : ServerState) (h : falsyStr cardId = true) :
    (postAttendance lookupFault saveFault now cardId time s).1 =
      PostAttendanceResponse.badRequest "cardId is required" ∧
    (postAttendance lookupFault saveFault now cardId time s).2.1 = s ∧
    (postAttendance lookupFault saveFault now cardId time s).2.2 = [] ∧
    (postAttendance lookupFault saveFault now cardId time s).1.status = 400 ∧
    (postAttendance lookupFault saveFault now cardId time s).1.success = false := by
  refine ⟨?_, ?_, ?_, ?_, ?_⟩ <;>
    simp [postAttendance, h, PostAttendanceResponse.status,
      PostAttendanceResponse.success]

/-- C3 witness at a concrete input (empty-string `cardId`). -/
theorem C3_missing_cardId_rejected_no_side_effects_witness :
    (postAttendance false false "T0" (some "") none stateWithAlice).1 =
      PostAttendanceResponse.badRequest "cardId is required" ∧
    (postAttendance false false "T0" (some "") none stateWithAlice).2.1 = stateWithAlice ∧
    (postAttendance false false "T0" (some "") none stateWithAlice).2.2 = [] ∧
    (postAttendance false false "T0" (some "") none stateWithAlice).1.status = 400 ∧
    (postAttendance false false "T0" (some "") none stateWithAlice).1.success = false :=
  C3_missing_cardId_rejected_no_side_effects false false "T0" (some "") none
    stateWithAlice (by decide)

/-- Registration never touches the Local Ledger. -/
theorem registerStudent_ledger (f : Bool) (c n sc rn : Option String)
    (s : ServerState) :
    (registerStudent f c n sc rn s).2.1.attendanceRecords = s.attendanceRecords := by
  unfold registerStudent
  repeat' split
  all_goals rfl

/-- One request keeps the Local Ledger ids in canonical shape
`[1, 2, ..., length]`. -/
theorem execOp_preserves_canonical_ids (s : ServerState) (op : Op)
    (h : ledgerIds s = List.range' 1 s.attendanceRecords.length) :
    ledgerIds (execOp s op) =
      List.range' 1 (execOp s op).attendanceRecords.length := by
  cases op with
  | post lf sf now c t =>
    by_cases hc : falsyStr c = true
    · simpa [execOp, postAttendance, hc] using h
    · have hc' : falsyStr c = false := by simpa using hc
      simp only [execOp, postAttendance, hc', Bool.false_eq_true, if_false]
      simp only [ledgerIds] at h ⊢
      simp [List.range'_1_concat, h, Nat.add_comm]
  | getAll f =>
    simpa [execOp, getAttendance] using (by cases f <;> simpa [getAttendance] using h)
  | getLatest f =>
    cases f <;> simpa [execOp, getAttendanceLatest] using h
  | getToday f d =>
    cases f <;> simpa [execOp, getAttendanceToday] using h
  | register f c n sc rn =>
    simp only [execOp, ledgerIds, registerStudent_ledger]
    simpa [ledgerIds] using h
  | clear =>
    simp [execOp, clearAttendance, ledgerIds]

/-- Folding any request sequence preserves the canonical id shape. -/
theorem foldl_execOp_canonical_ids (ops : List Op) (s : ServerState)
    (h : ledgerIds s = List.range' 1 s.attendanceRecords.length) :
    ledgerIds (ops.foldl execOp s) =
      List.range' 1 (ops.foldl execOp s).attendanceRecords.length := by
  induction ops generalizing s with
  | nil => exact h
  | cons op rest ih =>
    exact ih (execOp s op) (execOp_preserves_canonical_ids s op h)

/-- C4: an accepted ingestion assigns `localId = current ledger length + 1`,
and after any request sequence from a fresh process (clears included) the
`localId` values in the Local Ledger are pairwise distinct. -/
theorem C4_localId_sequential_and_unique :
    (∀ (lf sf : Bool) (now c : String) (t : Option String) (s : ServerState),
      c ≠ "" →
      ∃ r fid,
        (postAttendance lf sf now (some c) t s).1 =
          PostAttendanceResponse.created r fid ∧
        r.id = s.attendanceRecords.length + 1) ∧
    (∀ (remote : RemoteStore) (ops : List Op),
      (ledgerIds (ops.foldl execOp (initialState remote))).Nodup) := by
  constructor
  · intro lf sf now c t s h
    have hfalsy : falsyStr (some c) = false := by simp [falsyStr, h]
    simp only [postAttendance, hfalsy, Bool.false_eq_true, if_false]
    exact ⟨_, _, rfl, rfl⟩
  · intro remote ops
    have h := foldl_execOp_canonical_ids ops (initialState remote)
      (by simp [ledgerIds, initialState])
    rw [h]
    exact List.nodup_range' _ _

/-- C4 witness: concrete first id, and distinct ids across a concrete
sequence containing a clear. -/
theorem C4_localId_sequential_and_unique_witness :
    (∃ r fid,
      (postAttendance false false "T0" (some "CARD9") none emptyState).1 =
        PostAttendanceResponse.created r fid ∧
      r.id = emptyState.attendanceRecords.length + 1) ∧
    (ledgerIds
      ([Op.post false false "T0" (some "CARD9") none, Op.clear,
        Op.post false true "T1" (some "CARD1") none,
        Op.post true true "T2" (some "CARD2") none].foldl execOp
          (initialState emptyRemote))).Nodup :=
  ⟨C4_localId_sequential_and_unique.1 false false "T0" "CARD9" none emptyState
      (by decide),
   C4_localId_sequential_and_unique.2 emptyRemote _⟩

/-- A reachable lookup whose filter has a first match returns that match. -/
theorem getStudentDetails_first_match (students : List StudentDoc) (c : String)
    (d : StudentDoc) (rest : List StudentDoc)
    (h : students.filter (fun st => st.cardId == c) = d :: rest) :
    (getStudentDetails false students c).1 = some d := by
  simp [getStudentDetails, h]

/-- A faulted lookup, or a reachable lookup with an empty filter, returns
`null`. -/
theorem getStudentDetails_miss (fault : Bool) (students : List StudentDoc)
    (c : String)
    (h : fault = true ∨ students.filter (fun st => st.cardId == c) = []) :
    (getStudentDetails fault students c).1 = none := by
  rcases h with h | h
  · simp [getStudentDetails, h]
  · cases fault
    · simp [getStudentDetails, h]
    · simp [getStudentDetails]

/-- C5: with a reachable store, the first student matching the `cardId` is
embedded (name and class); on a miss or a faulted lookup the embedded
student is exactly the Unknown Student stub, and the resolver's output is
identical in the fault and no-match cases, so the caller cannot tell them
apart. -/
theorem C5_student_embedding_and_unknown_fallback
    (sf : Bool) (now : String) (c : String) (t : Option String) (h : c ≠ "") :
    (∀ (s : ServerState) (d : StudentDoc) (rest : List StudentDoc),
      s.remote.students.filter (fun st => st.cardId == c) = d :: rest →
      ∃ r fid,
        (postAttendance false sf now (some c) t s).1 =
          PostAttendanceResponse.created r fid ∧
        r.student = EmbeddedStudent.known d ∧
        r.student.name = d.name ∧ r.student.cls = d.cls) ∧
    (∀ (lf : Bool) (s : ServerState),
      (lf = true ∨ s.remote.students.filter (fun st => st.cardId == c) = []) →
      ∃ r fid,
        (postAttendance lf sf now (some c) t s).1 =
          PostAttendanceResponse.created r fid ∧
        r.student = EmbeddedStudent.unknownStudent ∧
        r.student.name = "Unknown Student" ∧ r.student.cls = "N/A") ∧
    (∀ (students others : List StudentDoc),
      others.filter (fun st => st.cardId == c) = [] →
      getStudentDetails true students c = getStudentDetails false others c) := by
  have hfalsy : falsyStr (some c) = false := by simp [falsyStr, h]
  refine ⟨?_, ?_, ?_⟩
  · intro s d rest hfilter
    have hres := getStudentDetails_first_match s.remote.students c d rest hfilter
    simp only [postAttendance, hfalsy, Bool.false_eq_true, if_false,
      Option.getD_some, hres]
    exact ⟨_, _, rfl, rfl, rfl, rfl⟩
  · intro lf s hmiss
    have hres := getStudentDetails_miss lf s.remote.students c hmiss
    simp only [postAttendance, hfalsy, Bool.false_eq_true, if_false,
      Option.getD_some, hres]
    exact ⟨_, _, rfl, rfl, rfl, rfl⟩
  · intro students others hfilter
    simp [getStudentDetails, hfilter]

/-- C5 witness: Alice is embedded for her card; an unknown card and a
faulted lookup both embed the Unknown Student stub. -/
theorem C5_student_embedding_and_unknown_fallback_witness :
    (∃ r fid,
      (postAttendance false false "T0" (some "CARD1") none stateWithAlice).1 =
        PostAttendanceResponse.created r fid ∧
      r.student = EmbeddedStudent.known aliceDoc ∧
      r.student.name = "Alice" ∧ r.student.cls = "10A") ∧
    (∃ r fid,
      (postAttendance true false "T0" (some "CARD1") none stateWithAlice).1 =
        PostAttendanceResponse.created r fid ∧
      r.student = EmbeddedStudent.unknownStudent ∧
      r.student.name = "Unknown Student" ∧ r.student.cls = "N/A") :=
  ⟨(C5_student_embedding_and_unknown_fallback false "T0" "CARD1" none
      (by decide)).1 stateWithAlice aliceDoc [] (by decide),
   (C5_student_embedding_and_unknown_fallback false "T0" "CARD1" none
      (by decide)).2.1 true stateWithAlice (Or.inl rfl)⟩

/-- `slice(-n)` followed by `reverse` equals `reverse` followed by
`take n`. -/
theorem drop_sub_reverse_eq_reverse_take {α : Type} (l : List α) (n : Nat) :
    (l.drop (l.length - n)).reverse = l.reverse.take n := by
  have h := List.rtake_eq_reverse_take_reverse (l := l) (n := n)
  simp only [List.rtake] at h
  rw [h, List.reverse_reverse]

/-- C6: with the store faulted, the All read answers 200/success with the
full Local Ledger in insertion order tagged `"memory"`, and the Latest
read answers at most the last 10 ledger entries in reverse insertion
order; both reads answer 200/success whatever the store does. -/
theorem C6_all_latest_fallback_and_never_fail (s : ServerState) :
    (getAttendance true s).1 =
      { status := 200, success := true, count := s.attendanceRecords.length
        data := s.attendanceRecords.map ReadItem.localRec, source := "memory" } ∧
    (getAttendanceLatest true s).1.data =
      (s.attendanceRecords.reverse.take 10).map ReadItem.localRec ∧
    (getAttendanceLatest true s).1.data.length ≤ 10 ∧
    (∀ fault : Bool,
      (getAttendance fault s).1.success = true ∧
      (getAttendance fault s).1.status = 200 ∧
      (getAttendanceLatest fault s).1.success = true ∧
      (getAttendanceLatest fault s).1.status = 200) := by
  refine ⟨rfl, ?_, ?_, ?_⟩
  · show (((s.attendanceRecords.drop (s.attendanceRecords.length - 10)).reverse).map
        ReadItem.localRec) = (s.attendanceRecords.reverse.take 10).map ReadItem.localRec
    rw [drop_sub_reverse_eq_reverse_take]
  · show (((s.attendanceRecords.drop (s.attendanceRecords.length - 10)).reverse).map
        ReadItem.localRec).length ≤ 10
    simp only [List.length_map, List.length_reverse, List.length_drop]
    omega
  · intro fault
    cases fault
    · exact ⟨rfl, rfl, rfl, rfl⟩
    · exact ⟨rfl, rfl, rfl, rfl⟩

/-- C7: a faulted Today read is answered with a 500 failure envelope, and
the Today read neither reads nor writes the Local Ledger: its response
only depends on the remote store, and the ledger is unchanged. -/
theorem C7_today_fault_is_server_error_no_fallback
    (startOfToday : Nat) (s other : ServerState)
    (h : other.remote = s.remote) :
    (getAttendanceToday true startOfToday s).1 =
      GetTodayResponse.serverError "Failed to fetch todays attendance" ∧
    (getAttendanceToday true startOfToday s).1.status = 500 ∧
    (getAttendanceToday true startOfToday s).1.success = false ∧
    (∀ fault : Bool,
      (getAttendanceToday fault startOfToday other).1 =
        (getAttendanceToday fault startOfToday s).1 ∧
      (getAttendanceToday fault startOfToday s).2.1.attendanceRecords =
        s.attendanceRecords) := by
  refine ⟨rfl, rfl, rfl, ?_⟩
  intro fault
  cases fault
  · exact ⟨by simp [getAttendanceToday, h], rfl⟩
  · exact ⟨rfl, rfl⟩

/-- C7 witness: two concrete states sharing a store but with different
ledgers get the same Today responses, and the faulted response is a 500. -/
theorem C7_today_fault_is_server_error_no_fallback_witness :
    (getAttendanceToday true 0 stateWithAlice).1 =
      GetTodayResponse.serverError "Failed to fetch todays attendance" ∧
    (getAttendanceToday true 0 stateWithAlice).1.status = 500 ∧
    (getAttendanceToday true 0 stateWithAlice).1.success = false ∧
    (∀ fault : Bool,
      (getAttendanceToday fault 0 stateWithAliceAndLedger).1 =
        (getAttendanceToday fault 0 stateWithAlice).1 ∧
      (getAttendanceToday fault 0 stateWithAlice).2.1.attendanceRecords =
        stateWithAlice.attendanceRecords) :=
  C7_today_fault_is_server_error_no_fallback 0 stateWithAlice
    stateWithAliceAndLedger rfl

/-- C8: the clear operation always empties the Local Ledger, reports the
exact prior count in its success message, and attempts no remote call. -/
theorem C8_clear_empties_and_reports_count (s : ServerState) :
    (clearAttendance s).2.1.attendanceRecords = [] ∧
    (clearAttendance s).2.1.remote = s.remote ∧
    (clearAttendance s).1.success = true ∧
    (clearAttendance s).1.message =
      "Cleared " ++ toString s.attendanceRecords.length ++
        " local records (Firebase data unchanged)" ∧
    (clearAttendance s).2.2 = [] :=
  ⟨rfl, rfl, rfl, rfl, rfl⟩

/-- C9: registration without `cardId` or `name` is a 400 validation error
with no side effect; otherwise a student document is written with `"N/A"`
defaults for missing `class`/`rollNumber`, and a faulted write is a 500
error that leaves the store unchanged. -/
theorem C9_register_validation_defaults_and_fault
    (fault : Bool) (cardId name studentClass rollNumber : Option String)
    (s : ServerState) :
    ((falsyStr cardId || falsyStr name) = true →
      (registerStudent fault cardId name studentClass rollNumber s).1 =
        RegisterResponse.badRequest "cardId and name are required" ∧
      (registerStudent fault cardId name studentClass rollNumber s).1.status = 400 ∧
      (registerStudent fault cardId name studentClass rollNumber s).2.1 = s ∧
      (registerStudent fault cardId name studentClass rollNumber s).2.2 = []) ∧
    ((falsyStr cardId || falsyStr name) = false →
      (fault = true →
        (registerStudent fault cardId name studentClass rollNumber s).1 =
          RegisterResponse.serverError "Failed to register student" ∧
        (registerStudent fault cardId name studentClass rollNumber s).1.status = 500 ∧
        (registerStudent fault cardId name studentClass rollNumber s).2.1 = s) ∧
      (fault = false →
        ∃ d : StudentDoc,
          (registerStudent fault cardId name studentClass rollNumber s).2.1.remote.students =
            s.remote.students ++ [d] ∧
          (registerStudent fault cardId name studentClass rollNumber s).2.1.attendanceRecords =
            s.attendanceRecords ∧
          d.cardId = cardId.getD "" ∧
          d.name = name.getD "" ∧
          (falsyStr studentClass = true → d.cls = "N/A") ∧
          (falsyStr studentClass = false → d.cls = studentClass.getD "") ∧
          (falsyStr rollNumber = true → d.rollNumber = "N/A") ∧
          (falsyStr rollNumber = false → d.rollNumber = rollNumber.getD "") ∧
          (registerStudent fault cardId name studentClass rollNumber s).1 =
            RegisterResponse.created d.docId (cardId.getD "") (name.getD "") ∧
          (registerStudent fault cardId name studentClass rollNumber s).1.status =
            201)) := by
  constructor
  · intro h
    refine ⟨?_, ?_, ?_, ?_⟩ <;> simp [registerStudent, h, RegisterResponse.status]
  · intro h
    constructor
    · intro hf
      subst hf
      refine ⟨?_, ?_, ?_⟩ <;> simp [registerStudent, h, RegisterResponse.status]
    · intro hf
      subst hf
      simp only [registerStudent, h, Bool.false_eq_true, if_false]
      refine ⟨{ docId := toString s.remote.nextId
                cardId := cardId.getD ""
                name := name.getD ""
                cls := if falsyStr studentClass = true then "N/A"
                       else studentClass.getD ""
                rollNumber := if falsyStr rollNumber = true then "N/A"
                              else rollNumber.getD ""
                registeredAt := s.remote.nextId },
             rfl, trivial, rfl, rfl, ?_, ?_, ?_, ?_, rfl, rfl⟩ <;>
        (intro hc; simp [hc])

/-- C9 witness: a concrete rejected call and a concrete accepted call with
a defaulted `class`. -/
theorem C9_register_validation_defaults_and_fault_witness :
    ((registerStudent false none (some "Bob") none none emptyState).1 =
        RegisterResponse.badRequest "cardId and name are required" ∧
      (registerStudent false none (some "Bob") none none emptyState).1.status = 400 ∧
      (registerStudent false none (some "Bob") none none emptyState).2.1 = emptyState ∧
      (registerStudent false none (some "Bob") none none emptyState).2.2 = []) ∧
    (∃ d : StudentDoc,
      (registerStudent false (some "CARD7") (some "Bob") none (some "12")
          emptyState).2.1.remote.students =
        emptyState.remote.students ++ [d] ∧
      (registerStudent false (some "CARD7") (some "Bob") none (some "12")
          emptyState).2.1.attendanceRecords = emptyState.attendanceRecords ∧
      d.cardId = (some "CARD7").getD "" ∧
      d.name = (some "Bob").getD "" ∧
      (falsyStr none = true → d.cls = "N/A") ∧
      (falsyStr (none : Option String) = false → d.cls = (none : Option String).getD "") ∧
      (falsyStr (some "12") = true → d.rollNumber = "N/A") ∧
      (falsyStr (some "12") = false → d.rollNumber = (some "12").getD "") ∧
      (registerStudent false (some "CARD7") (some "Bob") none (some "12")
          emptyState).1 =
        RegisterResponse.created d.docId ((some "CARD7").getD "")
          ((some "Bob").getD "") ∧
      (registerStudent false (some "CARD7") (some "Bob") none (some "12")
          emptyState).1.status = 201) :=
  ⟨(C9_register_validation_defaults_and_fault false none (some "Bob") none none
      emptyState).1 (by decide),
   ((C9_register_validation_defaults_and_fault false (some "CARD7") (some "Bob")
      none (some "12") emptyState).2 (by decide)).2 rfl⟩

/-- C10: none of the three read endpoints changes the Local Ledger,
whether the remote store answers or faults. -/
theorem C10_reads_never_modify_ledger
    (fault : Bool) (startOfToday : Nat) (s : ServerState) :
    (getAttendance fault s).2.1.attendanceRecords = s.attendanceRecords ∧
    (getAttendanceLatest fault s).2.1.attendanceRecords = s.attendanceRecords ∧
    (getAttendanceToday fault startOfToday s).2.1.attendanceRecords =
      s.attendanceRecords := by
  cases fault
  · exact ⟨rfl, rfl, rfl⟩
  · exact ⟨rfl, rfl, rfl⟩

end Rfid
